import Mathlib

/-!
# Verification of the Galaxea pick-and-lift state machine

Shallow embedding of `source/standalone/galaxea/state_machine/pick_n_lift.py`:
the warp kernel `infer_state_machine`, the controller bookkeeping of
`PickAndLiftSm` / `PickAndLiftRightArmSm` (construction, `set_task_config`,
`reset_idx`), and the geometric derivation inside `generate_actions`.

Scalars are modelled exactly: the float values appearing in the source are
embedded as rationals (`ℚ`), and the trigonometric parts of the pose algebra
are stated over `ℝ`.  Machine-float rounding is not modelled; arithmetic is
exact.
-/

/-- A 3-vector, as stored in one row of a position tensor. -/
structure Vec3 (α : Type) where
  x : α
  y : α
  z : α
deriving DecidableEq, Repr

/-- A quaternion with scalar part `w` and vector part `(x, y, z)`.
Warp stores the components in memory as `(x, y, z, w)`; the field names here
carry the mathematical roles, not the storage order. -/
structure Quat (α : Type) where
  w : α
  x : α
  y : α
  z : α
deriving DecidableEq, Repr

/-- A rigid transform (`wp.transform`): a position and a quaternion. -/
structure WpTransform (α : Type) where
  p : Vec3 α
  q : Quat α
deriving DecidableEq, Repr

/-- Componentwise vector addition. -/
def vec3_add [Add α] (a b : Vec3 α) : Vec3 α :=
  ⟨a.x + b.x, a.y + b.y, a.z + b.z⟩

/-- Scaling of a vector by a scalar. -/
def vec3_scale [Mul α] (c : α) (v : Vec3 α) : Vec3 α :=
  ⟨c * v.x, c * v.y, c * v.z⟩

/-- Cross product of two 3-vectors. -/
def vec3_cross [CommRing α] (a b : Vec3 α) : Vec3 α :=
  ⟨a.y * b.z - a.z * b.y, a.z * b.x - a.x * b.z, a.x * b.y - a.y * b.x⟩

/-- Dot product of two 3-vectors. -/
def vec3_dot [CommRing α] (a b : Vec3 α) : α :=
  a.x * b.x + a.y * b.y + a.z * b.z

/-- Hamilton product of two quaternions (`wp.mul` on quaternions,
`quat_mul` in the Isaac Lab math utilities). -/
def quat_mul [CommRing α] (a b : Quat α) : Quat α :=
  { w := a.w * b.w - a.x * b.x - a.y * b.y - a.z * b.z
    x := a.w * b.x + a.x * b.w + a.y * b.z - a.z * b.y
    y := a.w * b.y - a.x * b.z + a.y * b.w + a.z * b.x
    z := a.w * b.z + a.x * b.y - a.y * b.x + a.z * b.w }

/-- The vector part of a quaternion. -/
def quat_vec (q : Quat α) : Vec3 α := ⟨q.x, q.y, q.z⟩

/-- Warp's `quat_rotate q v`:
`v * (2 w² − 1) + cross(u, v) * w * 2 + u * (dot(u, v) * 2)` with `u` the
vector part of `q`.  For a unit quaternion this is the rotation `q v q⁻¹`. -/
def quat_rotate [CommRing α] (q : Quat α) (v : Vec3 α) : Vec3 α :=
  vec3_add
    (vec3_add (vec3_scale (2 * q.w * q.w - 1) v)
      (vec3_scale (q.w * 2) (vec3_cross (quat_vec q) v)))
    (vec3_scale (vec3_dot (quat_vec q) v * 2) (quat_vec q))

/-- Warp's `transform_multiply a b`: position `quat_rotate a.q b.p + a.p`,
orientation `a.q * b.q` (so `(a*b)(x) = a(b(x))`). -/
def transform_multiply [CommRing α] (a b : WpTransform α) : WpTransform α :=
  ⟨vec3_add (quat_rotate a.q b.p) a.p, quat_mul a.q b.q⟩

/-- Modelled from the spec: `combine(parent, local_offset)` "rotates
`local_offset.position` by `parent.orientation`, adds `parent.position`, and
composes orientations by quaternion multiplication". -/
def combine_spec [CommRing α] (parent local_offset : WpTransform α) : WpTransform α :=
  ⟨vec3_add parent.p (quat_rotate parent.q local_offset.p),
    quat_mul parent.q local_offset.q⟩

namespace GripperState

/-- `GripperState.OPEN = wp.constant(1.0)`. -/
def OPEN : ℚ := 1

/-- `GripperState.CLOSE = wp.constant(-1.0)`. -/
def CLOSE : ℚ := -1

end GripperState

namespace PickSmState

/-- `PickSmState.REST = wp.constant(0)`. -/
def REST : ℤ := 0

/-- `PickSmState.APPROACH_ABOVE_OBJECT = wp.constant(1)`. -/
def APPROACH_ABOVE_OBJECT : ℤ := 1

/-- `PickSmState.APPROACH_OBJECT = wp.constant(2)`. -/
def APPROACH_OBJECT : ℤ := 2

/-- `PickSmState.GRASP_OBJECT = wp.constant(3)`. -/
def GRASP_OBJECT : ℤ := 3

/-- `PickSmState.LIFT_OBJECT = wp.constant(4)`. -/
def LIFT_OBJECT : ℤ := 4

end PickSmState

namespace PickSmWaitTime

/-- `PickSmWaitTime.REST = wp.constant(0.2)`. -/
def REST : ℚ := 1/5

/-- `PickSmWaitTime.APPROACH_ABOVE_OBJECT = wp.constant(0.5)`. -/
def APPROACH_ABOVE_OBJECT : ℚ := 1/2

/-- `PickSmWaitTime.APPROACH_OBJECT = wp.constant(1.5)`. -/
def APPROACH_OBJECT : ℚ := 3/2

/-- `PickSmWaitTime.GRASP_OBJECT = wp.constant(0.5)`. -/
def GRASP_OBJECT : ℚ := 1/2

/-- `PickSmWaitTime.LIFT_OBJECT = wp.constant(1.0)`. -/
def LIFT_OBJECT : ℚ := 1

end PickSmWaitTime

/-- The per-environment slice of the arrays the kernel reads and writes:
`sm_state[tid]`, `sm_wait_time[tid]`, `des_ee_pose[tid]`,
`gripper_state[tid]`. -/
structure SmCell where
  smState : ℤ
  smWaitTime : ℚ
  desEePose : WpTransform ℚ
  gripper : ℚ
deriving DecidableEq, Repr

/-- The branch logic of the kernel `infer_state_machine` (everything before
the final `sm_wait_time[tid] = sm_wait_time[tid] + dt[tid]` line), for one
thread id.  Each `if` mirrors one `if state == ...` branch of the kernel;
when the wait-time test fires the branch moves to the next state and resets
the wait time to `0.0`.  Note the `APPROACH_ABOVE_OBJECT` branch tests
against `PickSmWaitTime.APPROACH_OBJECT`, exactly as the source does. -/
def infer_branch (c : SmCell)
    (eePose objectPose desObjectPose offset : WpTransform ℚ) : SmCell :=
  if c.smState = PickSmState.REST then
    if c.smWaitTime ≥ PickSmWaitTime.REST then
      { smState := PickSmState.APPROACH_ABOVE_OBJECT, smWaitTime := 0,
        desEePose := eePose, gripper := GripperState.OPEN }
    else
      { c with desEePose := eePose, gripper := GripperState.OPEN }
  else if c.smState = PickSmState.APPROACH_ABOVE_OBJECT then
    if c.smWaitTime ≥ PickSmWaitTime.APPROACH_OBJECT then
      { smState := PickSmState.APPROACH_OBJECT, smWaitTime := 0,
        desEePose := transform_multiply offset objectPose,
        gripper := GripperState.OPEN }
    else
      { c with
          desEePose := transform_multiply offset objectPose
          gripper := GripperState.OPEN }
  else if c.smState = PickSmState.APPROACH_OBJECT then
    if c.smWaitTime ≥ PickSmWaitTime.APPROACH_OBJECT then
      { smState := PickSmState.GRASP_OBJECT, smWaitTime := 0,
        desEePose := objectPose, gripper := GripperState.OPEN }
    else
      { c with desEePose := objectPose, gripper := GripperState.OPEN }
  else if c.smState = PickSmState.GRASP_OBJECT then
    if c.smWaitTime ≥ PickSmWaitTime.GRASP_OBJECT then
      { smState := PickSmState.LIFT_OBJECT, smWaitTime := 0,
        desEePose := objectPose, gripper := GripperState.CLOSE }
    else
      { c with desEePose := objectPose, gripper := GripperState.CLOSE }
  else if c.smState = PickSmState.LIFT_OBJECT then
    if c.smWaitTime ≥ PickSmWaitTime.LIFT_OBJECT then
      { smState := PickSmState.LIFT_OBJECT, smWaitTime := 0,
        desEePose := desObjectPose, gripper := GripperState.CLOSE }
    else
      { c with desEePose := desObjectPose, gripper := GripperState.CLOSE }
  else
    c

/-- One tick of the warp kernel `infer_state_machine` for one thread id:
the branch logic followed by the unconditional
`sm_wait_time[tid] = sm_wait_time[tid] + dt[tid]`. -/
def infer_state_machine (dt : ℚ) (c : SmCell)
    (eePose objectPose desObjectPose offset : WpTransform ℚ) : SmCell :=
  let c' := infer_branch c eePose objectPose desObjectPose offset
  { c' with smWaitTime := c'.smWaitTime + dt }

/-- The all-zero transform (`torch.zeros((num_envs, 7))` rows). -/
def zeroTransform : WpTransform ℚ := ⟨⟨0, 0, 0⟩, ⟨0, 0, 0, 0⟩⟩

/-- The per-environment state right after `PickAndLiftSm.__init__`:
`sm_state = 0`, `sm_wait_time = 0`, `des_ee_pose = zeros`,
`des_gripper_state = 0`. -/
def initCell : SmCell :=
  { smState := 0, smWaitTime := 0, desEePose := zeroTransform, gripper := 0 }

/-- The approach-above-object offset built in `__init__`:
`offset[:, 2] = 0.1`, `offset[:, -1] = 1.0` with warp `(x, y, z, w)` layout,
i.e. position `(0, 0, 0.1)` and identity orientation. -/
def approach_offset : WpTransform ℚ := ⟨⟨0, 0, 1/10⟩, ⟨1, 0, 0, 0⟩⟩

/-- Running the kernel for `n` ticks from cell `c`, feeding it the pose
observations `ins k = (ee_pose, object_pose, des_object_pose, offset)` on
tick `k+1`. -/
def runTicks (dt : ℚ)
    (ins : ℕ → WpTransform ℚ × WpTransform ℚ × WpTransform ℚ × WpTransform ℚ)
    (c : SmCell) : ℕ → SmCell
  | 0 => c
  | n + 1 =>
      let i := ins n
      infer_state_machine dt (runTicks dt ins c n) i.1 i.2.1 i.2.2.1 i.2.2.2

/-- The `(sm_state, sm_wait_time)` projection of the kernel's branch logic;
the poses do not influence it. -/
def ctrl (p : ℤ × ℚ) : ℤ × ℚ :=
  if p.1 = PickSmState.REST then
    if p.2 ≥ PickSmWaitTime.REST then (PickSmState.APPROACH_ABOVE_OBJECT, 0) else p
  else if p.1 = PickSmState.APPROACH_ABOVE_OBJECT then
    if p.2 ≥ PickSmWaitTime.APPROACH_OBJECT then (PickSmState.APPROACH_OBJECT, 0) else p
  else if p.1 = PickSmState.APPROACH_OBJECT then
    if p.2 ≥ PickSmWaitTime.APPROACH_OBJECT then (PickSmState.GRASP_OBJECT, 0) else p
  else if p.1 = PickSmState.GRASP_OBJECT then
    if p.2 ≥ PickSmWaitTime.GRASP_OBJECT then (PickSmState.LIFT_OBJECT, 0) else p
  else if p.1 = PickSmState.LIFT_OBJECT then
    if p.2 ≥ PickSmWaitTime.LIFT_OBJECT then (PickSmState.LIFT_OBJECT, 0) else p
  else p

/-- The `(sm_state, sm_wait_time)` projection of one full kernel tick. -/
def ctrlStep (dt : ℚ) (p : ℤ × ℚ) : ℤ × ℚ :=
  let p' := ctrl p
  (p'.1, p'.2 + dt)

/-- Iterating the control projection from the freshly constructed
`(REST, 0)` record. -/
def ctrlIter (dt : ℚ) : ℕ → ℤ × ℚ
  | 0 => (0, 0)
  | n + 1 => ctrlStep dt (ctrlIter dt n)

/-- Python's substring test `sub in s`, on lists of characters. -/
def contains_sub (sub : List Char) : List Char → Bool
  | [] => sub.isEmpty
  | c :: rest => sub.isPrefixOf (c :: rest) || contains_sub sub rest

/-- The `task_offset` tensor filled by `set_task_config`
(`x, y, z, roll, pitch, yaw`); index 1 is the lateral offset, index 2 the
vertical offset, index 5 the yaw offset. -/
structure TaskOffset (α : Type) where
  x : α
  lateral : α
  vertical : α
  roll : α
  pitch : α
  yaw : α
deriving DecidableEq, Repr

/-- `PickAndLiftSm.set_task_config` (identical in `PickAndLiftRightArmSm`):
a case-insensitive substring match on the task name.  `"cube"` selects
`(0.15, -0.005, 1.5707963)` for indices `(1, 2, 5)`, `"bin"` selects
`(0.145, 0.025, 0.0)`, and anything else raises `ValueError`, modelled as
`none`.  Python's `task.lower()` is modelled characterwise as
`task.toList.map Char.toLower`. -/
def set_task_config (task : String) : Option (TaskOffset ℚ) :=
  if contains_sub "cube".toList (task.toList.map Char.toLower) then
    some ⟨0, 15/100, -(5/1000), 0, 0, 15707963/10000000⟩
  else if contains_sub "bin".toList (task.toList.map Char.toLower) then
    some ⟨0, 145/1000, 25/1000, 0, 0, 0⟩
  else
    none

/-- `reset_idx`: `self.sm_state[env_ids] = 0; self.sm_wait_time[env_ids] = 0.0`.
The batch is a function from environment index to cell; torch advanced-index
assignment writes exactly the listed indices, and `env_ids = None` (the
default) becomes `slice(None)`, which writes every index. -/
def reset_idx (envIds : Option (List ℕ)) (batch : ℕ → SmCell) : ℕ → SmCell :=
  fun i =>
    match envIds with
    | none => { batch i with smState := 0, smWaitTime := 0 }
    | some ids =>
        if i ∈ ids then { batch i with smState := 0, smWaitTime := 0 }
        else batch i

/-- The transition guard of the kernel: in each recognised state the move to
the next state (with the wait-time reset to `0.0`) happens exactly when the
pre-increment wait time has reached that state's threshold, as read off the
five `if sm_wait_time[tid] >= ...` tests. -/
def transition_fires (state : ℤ) (wait : ℚ) : Bool :=
  if state = PickSmState.REST then decide (wait ≥ PickSmWaitTime.REST)
  else if state = PickSmState.APPROACH_ABOVE_OBJECT then
    decide (wait ≥ PickSmWaitTime.APPROACH_OBJECT)
  else if state = PickSmState.APPROACH_OBJECT then
    decide (wait ≥ PickSmWaitTime.APPROACH_OBJECT)
  else if state = PickSmState.GRASP_OBJECT then
    decide (wait ≥ PickSmWaitTime.GRASP_OBJECT)
  else if state = PickSmState.LIFT_OBJECT then
    decide (wait ≥ PickSmWaitTime.LIFT_OBJECT)
  else false

/-- Isaac Lab `quat_apply q v`: `v + q.w * t + cross(u, t)` with
`t = 2 * cross(u, v)` and `u` the vector part of `q`; the rotation of `v`
by the unit quaternion `q`. -/
def quat_apply [CommRing α] (q : Quat α) (v : Vec3 α) : Vec3 α :=
  let t := vec3_scale 2 (vec3_cross (quat_vec q) v)
  vec3_add (vec3_add v (vec3_scale q.w t)) (vec3_cross (quat_vec q) t)

/-- The three-argument form of Isaac Lab `combine_frame_transforms`
(`t02 = t01 + quat_apply(q01, t12)`); the orientation output is discarded at
every call site in `generate_actions`, so only the position is modelled. -/
def combine_frame_transforms_pos [CommRing α]
    (t01 : Vec3 α) (q01 : Quat α) (t12 : Vec3 α) : Vec3 α :=
  vec3_add t01 (quat_apply q01 t12)

/-- Isaac Lab `quat_from_euler_xyz roll pitch yaw`, returning `(w, x, y, z)`.
The cosine and sine functions are passed explicitly so that the definition
is stated over an arbitrary field and instantiated with `Real.cos` and
`Real.sin` in the theorems.  `* (1/2)` is the source's `* 0.5`. -/
def quat_from_euler_xyz [Field α] (cos sin : α → α)
    (roll pitch yaw : α) : Quat α :=
  let cy := cos (yaw * (1/2))
  let sy := sin (yaw * (1/2))
  let cr := cos (roll * (1/2))
  let sr := sin (roll * (1/2))
  let cp := cos (pitch * (1/2))
  let sp := sin (pitch * (1/2))
  { w := cy * cr * cp + sy * sr * sp
    x := cy * sr * cp - sy * cr * sp
    y := cy * cr * sp + sy * sr * cp
    z := sy * cr * cp - cy * sr * sp }

/-- `left_object_position` in `PickAndLiftSm.generate_actions`: the object
pose combined with the left grasp offset `(0, +task.lateral, task.vertical)`. -/
def left_object_position [CommRing α]
    (objPos : Vec3 α) (objQuat : Quat α) (t : TaskOffset α) : Vec3 α :=
  combine_frame_transforms_pos objPos objQuat ⟨0, t.lateral, t.vertical⟩

/-- `right_object_position` in `PickAndLiftSm.generate_actions`: the object
pose combined with the right grasp offset `(0, -task.lateral, task.vertical)`. -/
def right_object_position [CommRing α]
    (objPos : Vec3 α) (objQuat : Quat α) (t : TaskOffset α) : Vec3 α :=
  combine_frame_transforms_pos objPos objQuat ⟨0, -t.lateral, t.vertical⟩

/-- `left_desired_position`: `goal_pos.clone()` with
`[:, 1] += task_offset[1]`. -/
def left_desired_position [CommRing α] (goal : Vec3 α) (t : TaskOffset α) : Vec3 α :=
  ⟨goal.x, goal.y + t.lateral, goal.z⟩

/-- `right_desired_position`: `goal_pos.clone()` with
`[:, 1] -= task_offset[1]`. -/
def right_desired_position [CommRing α] (goal : Vec3 α) (t : TaskOffset α) : Vec3 α :=
  ⟨goal.x, goal.y - t.lateral, goal.z⟩

/-- `l_orientation_offset_quat`: `quat_from_euler_xyz` applied to the Euler
triple whose first component is `object_yaw - task_offset[5]` and whose other
components are zero. -/
def l_orientation_offset_quat [Field α] (cos sin : α → α)
    (objYaw : α) (t : TaskOffset α) : Quat α :=
  quat_from_euler_xyz cos sin (objYaw - t.yaw) 0 0

/-- `r_orientation_offset_quat`: `quat_from_euler_xyz` applied to the Euler
triple whose first component is `object_yaw + task_offset[5]` and whose other
components are zero. -/
def r_orientation_offset_quat [Field α] (cos sin : α → α)
    (objYaw : α) (t : TaskOffset α) : Quat α :=
  quat_from_euler_xyz cos sin (objYaw + t.yaw) 0 0

/-- The `[:, [3, 0, 1, 2]]` component permutation applied to the output of
`quat_from_euler_xyz` (the source comment reads "conver to (z, w, x, y)"). -/
def reorder_3012 (q : Quat α) : List α :=
  [q.z, q.w, q.x, q.y]

/-- `torch.cat([a, b], dim=-1)` on two 2-D tensors modelled as row lists:
defined only when the row counts agree, which is exactly when torch does not
raise a shape-mismatch error. -/
def torch_cat2 (a b : List (List ℚ)) : Option (List (List ℚ)) :=
  if a.length = b.length then some (List.zipWith (fun r s => r ++ s) a b)
  else none

/-- The `left_actions` line of `PickAndLiftRightArmSm.generate_actions`:
`torch.cat([left_tcp_rest_position, left_tcp_rest_orientation,
torch.tensor([[1.0]])], dim=-1)` — note the hard-coded single-row gripper
tensor `[[1.0]]`. -/
def rightArmSm_left_actions (leftPos leftQuat : List (List ℚ)) :
    Option (List (List ℚ)) := do
  let tp ← torch_cat2 leftPos leftQuat
  torch_cat2 tp [[1]]

/-- The final concatenation of `PickAndLiftRightArmSm.generate_actions`:
`torch.cat([left_actions, right_actions], dim=-1)`, with `right_actions`
the 8-column output of `compute`. -/
def rightArmSm_generate_actions
    (leftPos leftQuat rightActions : List (List ℚ)) :
    Option (List (List ℚ)) := do
  let la ← rightArmSm_left_actions leftPos leftQuat
  torch_cat2 la rightActions

/-- One externally driven operation on a single environment's cell: a
`compute` tick (with whatever poses the driver observed) or a `reset_idx`
call that covers this environment. -/
inductive SmOp where
  | step (eePose objectPose desObjectPose offset : WpTransform ℚ)
  | reset

/-- Apply one operation to a cell. -/
def applySmOp (dt : ℚ) (c : SmCell) : SmOp → SmCell
  | .step ee op dop off => infer_state_machine dt c ee op dop off
  | .reset => { c with smState := 0, smWaitTime := 0 }

/-- Run a sequence of operations, first element first. -/
def execOps (dt : ℚ) (c : SmCell) : List SmOp → SmCell
  | [] => c
  | o :: rest => execOps dt (applySmOp dt c o) rest

/-- Expected `(sm_state, sm_wait_time)` trajectory for `dt = 0.01`. -/
def dt100_expected (n : ℕ) : ℤ × ℚ :=
  (if n ≤ 20 then 0 else 1, if n ≤ 20 then (n : ℚ)/100 else 1/100)


/-- Expected `sm_state` trajectory for `dt = 0.1`. -/
def dt10_expected (n : ℕ) : ℤ :=
  if n ≤ 2 then 0 else if n ≤ 17 then 1 else if n ≤ 32 then 2
    else if n ≤ 37 then 3 else 4


lemma infer_branch_proj (c : SmCell)
    (ee op dop off : WpTransform ℚ) :
    ((infer_branch c ee op dop off).smState,
      (infer_branch c ee op dop off).smWaitTime) = ctrl (c.smState, c.smWaitTime) := by
  unfold infer_branch ctrl
  repeat' split
  all_goals rfl

lemma infer_state_machine_proj (dt : ℚ) (c : SmCell)
    (ee op dop off : WpTransform ℚ) :
    ((infer_state_machine dt c ee op dop off).smState,
      (infer_state_machine dt c ee op dop off).smWaitTime)
      = ctrlStep dt (c.smState, c.smWaitTime) := by
  have h := infer_branch_proj c ee op dop off
  have h1 : (infer_branch c ee op dop off).smState
      = (ctrl (c.smState, c.smWaitTime)).1 := congrArg Prod.fst h
  have h2 : (infer_branch c ee op dop off).smWaitTime
      = (ctrl (c.smState, c.smWaitTime)).2 := congrArg Prod.snd h
  show ((infer_branch c ee op dop off).smState,
      (infer_branch c ee op dop off).smWaitTime + dt)
    = ((ctrl (c.smState, c.smWaitTime)).1, (ctrl (c.smState, c.smWaitTime)).2 + dt)
  rw [h1, h2]

lemma runTicks_proj (dt : ℚ)
    (ins : ℕ → WpTransform ℚ × WpTransform ℚ × WpTransform ℚ × WpTransform ℚ)
    (n : ℕ) :
    ((runTicks dt ins initCell n).smState,
      (runTicks dt ins initCell n).smWaitTime) = ctrlIter dt n := by
  induction n with
  | zero => rfl
  | succ k ih =>
      show ((infer_state_machine dt (runTicks dt ins initCell k) _ _ _ _).smState,
        (infer_state_machine dt (runTicks dt ins initCell k) _ _ _ _).smWaitTime)
          = ctrlStep dt (ctrlIter dt k)
      rw [infer_state_machine_proj, ih]

lemma infer_gripper (dt : ℚ) (c : SmCell) (ee op dop off : WpTransform ℚ) :
    (infer_state_machine dt c ee op dop off).gripper =
      if c.smState = PickSmState.REST ∨ c.smState = PickSmState.APPROACH_ABOVE_OBJECT
          ∨ c.smState = PickSmState.APPROACH_OBJECT then GripperState.OPEN
      else if c.smState = PickSmState.GRASP_OBJECT
          ∨ c.smState = PickSmState.LIFT_OBJECT then GripperState.CLOSE
      else c.gripper := by
  unfold infer_state_machine infer_branch
  repeat' split
  all_goals simp_all [PickSmState.REST, PickSmState.APPROACH_ABOVE_OBJECT,
    PickSmState.APPROACH_OBJECT, PickSmState.GRASP_OBJECT, PickSmState.LIFT_OBJECT]

lemma ctrl_wait_cases (p : ℤ × ℚ) : (ctrl p).2 = 0 ∨ (ctrl p).2 = p.2 := by
  unfold ctrl
  repeat' split
  all_goals simp

lemma ctrl_enum (p : ℤ × ℚ)
    (h : p.1 = PickSmState.REST ∨ p.1 = PickSmState.APPROACH_ABOVE_OBJECT
      ∨ p.1 = PickSmState.APPROACH_OBJECT ∨ p.1 = PickSmState.GRASP_OBJECT
      ∨ p.1 = PickSmState.LIFT_OBJECT) :
    (ctrl p).1 = PickSmState.REST ∨ (ctrl p).1 = PickSmState.APPROACH_ABOVE_OBJECT
      ∨ (ctrl p).1 = PickSmState.APPROACH_OBJECT ∨ (ctrl p).1 = PickSmState.GRASP_OBJECT
      ∨ (ctrl p).1 = PickSmState.LIFT_OBJECT := by
  unfold ctrl
  repeat' split
  all_goals simp_all [PickSmState.REST, PickSmState.APPROACH_ABOVE_OBJECT,
    PickSmState.APPROACH_OBJECT, PickSmState.GRASP_OBJECT, PickSmState.LIFT_OBJECT]

lemma lift_step (dt : ℚ) (c : SmCell) (ee op dop off : WpTransform ℚ)
    (h : c.smState = PickSmState.LIFT_OBJECT) :
    (infer_state_machine dt c ee op dop off).smState = PickSmState.LIFT_OBJECT := by
  unfold infer_state_machine infer_branch
  repeat' split
  all_goals simp_all [PickSmState.REST, PickSmState.APPROACH_ABOVE_OBJECT,
    PickSmState.APPROACH_OBJECT, PickSmState.GRASP_OBJECT, PickSmState.LIFT_OBJECT]

lemma execOps_append (dt : ℚ) (c : SmCell) (l₁ l₂ : List SmOp) :
    execOps dt c (l₁ ++ l₂) = execOps dt (execOps dt c l₁) l₂ := by
  induction l₁ generalizing c with
  | nil => rfl
  | cons o rest ih =>
      show execOps dt (applySmOp dt c o) (rest ++ l₂)
        = execOps dt (execOps dt (applySmOp dt c o) rest) l₂
      exact ih (applySmOp dt c o)

lemma ctrlIter_dt100_table : ∀ n, n ≤ 21 → ctrlIter (1/100) n = dt100_expected n := by
  have h0 : ctrlIter (1/100) 0 = (0, 0) := rfl
  have h1 : ctrlIter (1/100) 1 = (0, 1/100) := by
    rw [show (1:ℕ) = 0+1 from rfl, ctrlIter, h0]
    norm_num [ctrlStep, ctrl, PickSmState.REST,
      PickSmState.APPROACH_ABOVE_OBJECT, PickSmState.APPROACH_OBJECT,
      PickSmState.GRASP_OBJECT, PickSmState.LIFT_OBJECT, PickSmWaitTime.REST,
      PickSmWaitTime.APPROACH_ABOVE_OBJECT, PickSmWaitTime.APPROACH_OBJECT,
      PickSmWaitTime.GRASP_OBJECT, PickSmWaitTime.LIFT_OBJECT]
  have h2 : ctrlIter (1/100) 2 = (0, 2/100) := by
    rw [show (2:ℕ) = 1+1 from rfl, ctrlIter, h1]
    norm_num [ctrlStep, ctrl, PickSmState.REST,
      PickSmState.APPROACH_ABOVE_OBJECT, PickSmState.APPROACH_OBJECT,
      PickSmState.GRASP_OBJECT, PickSmState.LIFT_OBJECT, PickSmWaitTime.REST,
      PickSmWaitTime.APPROACH_ABOVE_OBJECT, PickSmWaitTime.APPROACH_OBJECT,
      PickSmWaitTime.GRASP_OBJECT, PickSmWaitTime.LIFT_OBJECT]
  have h3 : ctrlIter (1/100) 3 = (0, 3/100) := by
    rw [show (3:ℕ) = 2+1 from rfl, ctrlIter, h2]
    norm_num [ctrlStep, ctrl, PickSmState.REST,
      PickSmState.APPROACH_ABOVE_OBJECT, PickSmState.APPROACH_OBJECT,
      PickSmState.GRASP_OBJECT, PickSmState.LIFT_OBJECT, PickSmWaitTime.REST,
      PickSmWaitTime.APPROACH_ABOVE_OBJECT, PickSmWaitTime.APPROACH_OBJECT,
      PickSmWaitTime.GRASP_OBJECT, PickSmWaitTime.LIFT_OBJECT]
  have h4 : ctrlIter (1/100) 4 = (0, 4/100) := by
    rw [show (4:ℕ) = 3+1 from rfl, ctrlIter, h3]
    norm_num [ctrlStep, ctrl, PickSmState.REST,
      PickSmState.APPROACH_ABOVE_OBJECT, PickSmState.APPROACH_OBJECT,
      PickSmState.GRASP_OBJECT, PickSmState.LIFT_OBJECT, PickSmWaitTime.REST,
      PickSmWaitTime.APPROACH_ABOVE_OBJECT, PickSmWaitTime.APPROACH_OBJECT,
      PickSmWaitTime.GRASP_OBJECT, PickSmWaitTime.LIFT_OBJECT]
  have h5 : ctrlIter (1/100) 5 = (0, 5/100) := by
    rw [show (5:ℕ) = 4+1 from rfl, ctrlIter, h4]
    norm_num [ctrlStep, ctrl, PickSmState.REST,
      PickSmState.APPROACH_ABOVE_OBJECT, PickSmState.APPROACH_OBJECT,
      PickSmState.GRASP_OBJECT, PickSmState.LIFT_OBJECT, PickSmWaitTime.REST,
      PickSmWaitTime.APPROACH_ABOVE_OBJECT, PickSmWaitTime.APPROACH_OBJECT,
      PickSmWaitTime.GRASP_OBJECT, PickSmWaitTime.LIFT_OBJECT]
  have h6 : ctrlIter (1/100) 6 = (0, 6/100) := by
    rw [show (6:ℕ) = 5+1 from rfl, ctrlIter, h5]
    norm_num [ctrlStep, ctrl, PickSmState.REST,
      PickSmState.APPROACH_ABOVE_OBJECT, PickSmState.APPROACH_OBJECT,
      PickSmState.GRASP_OBJECT, PickSmState.LIFT_OBJECT, PickSmWaitTime.REST,
      PickSmWaitTime.APPROACH_ABOVE_OBJECT, PickSmWaitTime.APPROACH_OBJECT,
      PickSmWaitTime.GRASP_OBJECT, PickSmWaitTime.LIFT_OBJECT]
  have h7 : ctrlIter (1/100) 7 = (0, 7/100) := by
    rw [show (7:ℕ) = 6+1 from rfl, ctrlIter, h6]
    norm_num [ctrlStep, ctrl, PickSmState.REST,
      PickSmState.APPROACH_ABOVE_OBJECT, PickSmState.APPROACH_OBJECT,
      PickSmState.GRASP_OBJECT, PickSmState.LIFT_OBJECT, PickSmWaitTime.REST,
      PickSmWaitTime.APPROACH_ABOVE_OBJECT, PickSmWaitTime.APPROACH_OBJECT,
      PickSmWaitTime.GRASP_OBJECT, PickSmWaitTime.LIFT_OBJECT]
  have h8 : ctrlIter (1/100) 8 = (0, 8/100) := by
    rw [show (8:ℕ) = 7+1 from rfl, ctrlIter, h7]
    norm_num [ctrlStep, ctrl, PickSmState.REST,
      PickSmState.APPROACH_ABOVE_OBJECT, PickSmState.APPROACH_OBJECT,
      PickSmState.GRASP_OBJECT, PickSmState.LIFT_OBJECT, PickSmWaitTime.REST,
      PickSmWaitTime.APPROACH_ABOVE_OBJECT, PickSmWaitTime.APPROACH_OBJECT,
      PickSmWaitTime.GRASP_OBJECT, PickSmWaitTime.LIFT_OBJECT]
  have h9 : ctrlIter (1/100) 9 = (0, 9/100) := by
    rw [show (9:ℕ) = 8+1 from rfl, ctrlIter, h8]
    norm_num [ctrlStep, ctrl, PickSmState.REST,
      PickSmState.APPROACH_ABOVE_OBJECT, PickSmState.APPROACH_OBJECT,
      PickSmState.GRASP_OBJECT, PickSmState.LIFT_OBJECT, PickSmWaitTime.REST,
      PickSmWaitTime.APPROACH_ABOVE_OBJECT, PickSmWaitTime.APPROACH_OBJECT,
      PickSmWaitTime.GRASP_OBJECT, PickSmWaitTime.LIFT_OBJECT]
  have h10 : ctrlIter (1/100) 10 = (0, 10/100) := by
    rw [show (10:ℕ) = 9+1 from rfl, ctrlIter, h9]
    norm_num [ctrlStep, ctrl, PickSmState.REST,
      PickSmState.APPROACH_ABOVE_OBJECT, PickSmState.APPROACH_OBJECT,
      PickSmState.GRASP_OBJECT, PickSmState.LIFT_OBJECT, PickSmWaitTime.REST,
      PickSmWaitTime.APPROACH_ABOVE_OBJECT, PickSmWaitTime.APPROACH_OBJECT,
      PickSmWaitTime.GRASP_OBJECT, PickSmWaitTime.LIFT_OBJECT]
  have h11 : ctrlIter (1/100) 11 = (0, 11/100) := by
    rw [show (11:ℕ) = 10+1 from rfl, ctrlIter, h10]
    norm_num [ctrlStep, ctrl, PickSmState.REST,
      PickSmState.APPROACH_ABOVE_OBJECT, PickSmState.APPROACH_OBJECT,
      PickSmState.GRASP_OBJECT, PickSmState.LIFT_OBJECT, PickSmWaitTime.REST,
      PickSmWaitTime.APPROACH_ABOVE_OBJECT, PickSmWaitTime.APPROACH_OBJECT,
      PickSmWaitTime.GRASP_OBJECT, PickSmWaitTime.LIFT_OBJECT]
  have h12 : ctrlIter (1/100) 12 = (0, 12/100) := by
    rw [show (12:ℕ) = 11+1 from rfl, ctrlIter, h11]
    norm_num [ctrlStep, ctrl, PickSmState.REST,
      PickSmState.APPROACH_ABOVE_OBJECT, PickSmState.APPROACH_OBJECT,
      PickSmState.GRASP_OBJECT, PickSmState.LIFT_OBJECT, PickSmWaitTime.REST,
      PickSmWaitTime.APPROACH_ABOVE_OBJECT, PickSmWaitTime.APPROACH_OBJECT,
      PickSmWaitTime.GRASP_OBJECT, PickSmWaitTime.LIFT_OBJECT]
  have h13 : ctrlIter (1/100) 13 = (0, 13/100) := by
    rw [show (13:ℕ) = 12+1 from rfl, ctrlIter, h12]
    norm_num [ctrlStep, ctrl, PickSmState.REST,
      PickSmState.APPROACH_ABOVE_OBJECT, PickSmState.APPROACH_OBJECT,
      PickSmState.GRASP_OBJECT, PickSmState.LIFT_OBJECT, PickSmWaitTime.REST,
      PickSmWaitTime.APPROACH_ABOVE_OBJECT, PickSmWaitTime.APPROACH_OBJECT,
      PickSmWaitTime.GRASP_OBJECT, PickSmWaitTime.LIFT_OBJECT]
  have h14 : ctrlIter (1/100) 14 = (0, 14/100) := by
    rw [show (14:ℕ) = 13+1 from rfl, ctrlIter, h13]
    norm_num [ctrlStep, ctrl, PickSmState.REST,
      PickSmState.APPROACH_ABOVE_OBJECT, PickSmState.APPROACH_OBJECT,
      PickSmState.GRASP_OBJECT, PickSmState.LIFT_OBJECT, PickSmWaitTime.REST,
      PickSmWaitTime.APPROACH_ABOVE_OBJECT, PickSmWaitTime.APPROACH_OBJECT,
      PickSmWaitTime.GRASP_OBJECT, PickSmWaitTime.LIFT_OBJECT]
  have h15 : ctrlIter (1/100) 15 = (0, 15/100) := by
    rw [show (15:ℕ) = 14+1 from rfl, ctrlIter, h14]
    norm_num [ctrlStep, ctrl, PickSmState.REST,
      PickSmState.APPROACH_ABOVE_OBJECT, PickSmState.APPROACH_OBJECT,
      PickSmState.GRASP_OBJECT, PickSmState.LIFT_OBJECT, PickSmWaitTime.REST,
      PickSmWaitTime.APPROACH_ABOVE_OBJECT, PickSmWaitTime.APPROACH_OBJECT,
      PickSmWaitTime.GRASP_OBJECT, PickSmWaitTime.LIFT_OBJECT]
  have h16 : ctrlIter (1/100) 16 = (0, 16/100) := by
    rw [show (16:ℕ) = 15+1 from rfl, ctrlIter, h15]
    norm_num [ctrlStep, ctrl, PickSmState.REST,
      PickSmState.APPROACH_ABOVE_OBJECT, PickSmState.APPROACH_OBJECT,
      PickSmState.GRASP_OBJECT, PickSmState.LIFT_OBJECT, PickSmWaitTime.REST,
      PickSmWaitTime.APPROACH_ABOVE_OBJECT, PickSmWaitTime.APPROACH_OBJECT,
      PickSmWaitTime.GRASP_OBJECT, PickSmWaitTime.LIFT_OBJECT]
  have h17 : ctrlIter (1/100) 17 = (0, 17/100) := by
    rw [show (17:ℕ) = 16+1 from rfl, ctrlIter, h16]
    norm_num [ctrlStep, ctrl, PickSmState.REST,
      PickSmState.APPROACH_ABOVE_OBJECT, PickSmState.APPROACH_OBJECT,
      PickSmState.GRASP_OBJECT, PickSmState.LIFT_OBJECT, PickSmWaitTime.REST,
      PickSmWaitTime.APPROACH_ABOVE_OBJECT, PickSmWaitTime.APPROACH_OBJECT,
      PickSmWaitTime.GRASP_OBJECT, PickSmWaitTime.LIFT_OBJECT]
  have h18 : ctrlIter (1/100) 18 = (0, 18/100) := by
    rw [show (18:ℕ) = 17+1 from rfl, ctrlIter, h17]
    norm_num [ctrlStep, ctrl, PickSmState.REST,
      PickSmState.APPROACH_ABOVE_OBJECT, PickSmState.APPROACH_OBJECT,
      PickSmState.GRASP_OBJECT, PickSmState.LIFT_OBJECT, PickSmWaitTime.REST,
      PickSmWaitTime.APPROACH_ABOVE_OBJECT, PickSmWaitTime.APPROACH_OBJECT,
      PickSmWaitTime.GRASP_OBJECT, PickSmWaitTime.LIFT_OBJECT]
  have h19 : ctrlIter (1/100) 19 = (0, 19/100) := by
    rw [show (19:ℕ) = 18+1 from rfl, ctrlIter, h18]
    norm_num [ctrlStep, ctrl, PickSmState.REST,
      PickSmState.APPROACH_ABOVE_OBJECT, PickSmState.APPROACH_OBJECT,
      PickSmState.GRASP_OBJECT, PickSmState.LIFT_OBJECT, PickSmWaitTime.REST,
      PickSmWaitTime.APPROACH_ABOVE_OBJECT, PickSmWaitTime.APPROACH_OBJECT,
      PickSmWaitTime.GRASP_OBJECT, PickSmWaitTime.LIFT_OBJECT]
  have h20 : ctrlIter (1/100) 20 = (0, 20/100) := by
    rw [show (20:ℕ) = 19+1 from rfl, ctrlIter, h19]
    norm_num [ctrlStep, ctrl, PickSmState.REST,
      PickSmState.APPROACH_ABOVE_OBJECT, PickSmState.APPROACH_OBJECT,
      PickSmState.GRASP_OBJECT, PickSmState.LIFT_OBJECT, PickSmWaitTime.REST,
      PickSmWaitTime.APPROACH_ABOVE_OBJECT, PickSmWaitTime.APPROACH_OBJECT,
      PickSmWaitTime.GRASP_OBJECT, PickSmWaitTime.LIFT_OBJECT]
  have h21 : ctrlIter (1/100) 21 = (1, 1/100) := by
    rw [show (21:ℕ) = 20+1 from rfl, ctrlIter, h20]
    norm_num [ctrlStep, ctrl, PickSmState.REST,
      PickSmState.APPROACH_ABOVE_OBJECT, PickSmState.APPROACH_OBJECT,
      PickSmState.GRASP_OBJECT, PickSmState.LIFT_OBJECT, PickSmWaitTime.REST,
      PickSmWaitTime.APPROACH_ABOVE_OBJECT, PickSmWaitTime.APPROACH_OBJECT,
      PickSmWaitTime.GRASP_OBJECT, PickSmWaitTime.LIFT_OBJECT]
  intro n hn
  interval_cases n
  · exact h0.trans (by norm_num [dt100_expected])
  · exact h1.trans (by norm_num [dt100_expected])
  · exact h2.trans (by norm_num [dt100_expected])
  · exact h3.trans (by norm_num [dt100_expected])
  · exact h4.trans (by norm_num [dt100_expected])
  · exact h5.trans (by norm_num [dt100_expected])
  · exact h6.trans (by norm_num [dt100_expected])
  · exact h7.trans (by norm_num [dt100_expected])
  · exact h8.trans (by norm_num [dt100_expected])
  · exact h9.trans (by norm_num [dt100_expected])
  · exact h10.trans (by norm_num [dt100_expected])
  · exact h11.trans (by norm_num [dt100_expected])
  · exact h12.trans (by norm_num [dt100_expected])
  · exact h13.trans (by norm_num [dt100_expected])
  · exact h14.trans (by norm_num [dt100_expected])
  · exact h15.trans (by norm_num [dt100_expected])
  · exact h16.trans (by norm_num [dt100_expected])
  · exact h17.trans (by norm_num [dt100_expected])
  · exact h18.trans (by norm_num [dt100_expected])
  · exact h19.trans (by norm_num [dt100_expected])
  · exact h20.trans (by norm_num [dt100_expected])
  · exact h21.trans (by norm_num [dt100_expected])

lemma ctrlIter_dt10_table : ∀ n, n ≤ 38 → (ctrlIter (1/10) n).1 = dt10_expected n := by
  have h0 : ctrlIter (1/10) 0 = (0, 0) := rfl
  have h1 : ctrlIter (1/10) 1 = (0, 1/10) := by
    rw [show (1:ℕ) = 0+1 from rfl, ctrlIter, h0]
    norm_num [ctrlStep, ctrl, PickSmState.REST,
      PickSmState.APPROACH_ABOVE_OBJECT, PickSmState.APPROACH_OBJECT,
      PickSmState.GRASP_OBJECT, PickSmState.LIFT_OBJECT, PickSmWaitTime.REST,
      PickSmWaitTime.APPROACH_ABOVE_OBJECT, PickSmWaitTime.APPROACH_OBJECT,
      PickSmWaitTime.GRASP_OBJECT, PickSmWaitTime.LIFT_OBJECT]
  have h2 : ctrlIter (1/10) 2 = (0, 2/10) := by
    rw [show (2:ℕ) = 1+1 from rfl, ctrlIter, h1]
    norm_num [ctrlStep, ctrl, PickSmState.REST,
      PickSmState.APPROACH_ABOVE_OBJECT, PickSmState.APPROACH_OBJECT,
      PickSmState.GRASP_OBJECT, PickSmState.LIFT_OBJECT, PickSmWaitTime.REST,
      PickSmWaitTime.APPROACH_ABOVE_OBJECT, PickSmWaitTime.APPROACH_OBJECT,
      PickSmWaitTime.GRASP_OBJECT, PickSmWaitTime.LIFT_OBJECT]
  have h3 : ctrlIter (1/10) 3 = (1, 1/10) := by
    rw [show (3:ℕ) = 2+1 from rfl, ctrlIter, h2]
    norm_num [ctrlStep, ctrl, PickSmState.REST,
      PickSmState.APPROACH_ABOVE_OBJECT, PickSmState.APPROACH_OBJECT,
      PickSmState.GRASP_OBJECT, PickSmState.LIFT_OBJECT, PickSmWaitTime.REST,
      PickSmWaitTime.APPROACH_ABOVE_OBJECT, PickSmWaitTime.APPROACH_OBJECT,
      PickSmWaitTime.GRASP_OBJECT, PickSmWaitTime.LIFT_OBJECT]
  have h4 : ctrlIter (1/10) 4 = (1, 2/10) := by
    rw [show (4:ℕ) = 3+1 from rfl, ctrlIter, h3]
    norm_num [ctrlStep, ctrl, PickSmState.REST,
      PickSmState.APPROACH_ABOVE_OBJECT, PickSmState.APPROACH_OBJECT,
      PickSmState.GRASP_OBJECT, PickSmState.LIFT_OBJECT, PickSmWaitTime.REST,
      PickSmWaitTime.APPROACH_ABOVE_OBJECT, PickSmWaitTime.APPROACH_OBJECT,
      PickSmWaitTime.GRASP_OBJECT, PickSmWaitTime.LIFT_OBJECT]
  have h5 : ctrlIter (1/10) 5 = (1, 3/10) := by
    rw [show (5:ℕ) = 4+1 from rfl, ctrlIter, h4]
    norm_num [ctrlStep, ctrl, PickSmState.REST,
      PickSmState.APPROACH_ABOVE_OBJECT, PickSmState.APPROACH_OBJECT,
      PickSmState.GRASP_OBJECT, PickSmState.LIFT_OBJECT, PickSmWaitTime.REST,
      PickSmWaitTime.APPROACH_ABOVE_OBJECT, PickSmWaitTime.APPROACH_OBJECT,
      PickSmWaitTime.GRASP_OBJECT, PickSmWaitTime.LIFT_OBJECT]
  have h6 : ctrlIter (1/10) 6 = (1, 4/10) := by
    rw [show (6:ℕ) = 5+1 from rfl, ctrlIter, h5]
    norm_num [ctrlStep, ctrl, PickSmState.REST,
      PickSmState.APPROACH_ABOVE_OBJECT, PickSmState.APPROACH_OBJECT,
      PickSmState.GRASP_OBJECT, PickSmState.LIFT_OBJECT, PickSmWaitTime.REST,
      PickSmWaitTime.APPROACH_ABOVE_OBJECT, PickSmWaitTime.APPROACH_OBJECT,
      PickSmWaitTime.GRASP_OBJECT, PickSmWaitTime.LIFT_OBJECT]
  have h7 : ctrlIter (1/10) 7 = (1, 5/10) := by
    rw [show (7:ℕ) = 6+1 from rfl, ctrlIter, h6]
    norm_num [ctrlStep, ctrl, PickSmState.REST,
      PickSmState.APPROACH_ABOVE_OBJECT, PickSmState.APPROACH_OBJECT,
      PickSmState.GRASP_OBJECT, PickSmState.LIFT_OBJECT, PickSmWaitTime.REST,
      PickSmWaitTime.APPROACH_ABOVE_OBJECT, PickSmWaitTime.APPROACH_OBJECT,
      PickSmWaitTime.GRASP_OBJECT, PickSmWaitTime.LIFT_OBJECT]
  have h8 : ctrlIter (1/10) 8 = (1, 6/10) := by
    rw [show (8:ℕ) = 7+1 from rfl, ctrlIter, h7]
    norm_num [ctrlStep, ctrl, PickSmState.REST,
      PickSmState.APPROACH_ABOVE_OBJECT, PickSmState.APPROACH_OBJECT,
      PickSmState.GRASP_OBJECT, PickSmState.LIFT_OBJECT, PickSmWaitTime.REST,
      PickSmWaitTime.APPROACH_ABOVE_OBJECT, PickSmWaitTime.APPROACH_OBJECT,
      PickSmWaitTime.GRASP_OBJECT, PickSmWaitTime.LIFT_OBJECT]
  have h9 : ctrlIter (1/10) 9 = (1, 7/10) := by
    rw [show (9:ℕ) = 8+1 from rfl, ctrlIter, h8]
    norm_num [ctrlStep, ctrl, PickSmState.REST,
      PickSmState.APPROACH_ABOVE_OBJECT, PickSmState.APPROACH_OBJECT,
      PickSmState.GRASP_OBJECT, PickSmState.LIFT_OBJECT, PickSmWaitTime.REST,
      PickSmWaitTime.APPROACH_ABOVE_OBJECT, PickSmWaitTime.APPROACH_OBJECT,
      PickSmWaitTime.GRASP_OBJECT, PickSmWaitTime.LIFT_OBJECT]
  have h10 : ctrlIter (1/10) 10 = (1, 8/10) := by
    rw [show (10:ℕ) = 9+1 from rfl, ctrlIter, h9]
    norm_num [ctrlStep, ctrl, PickSmState.REST,
      PickSmState.APPROACH_ABOVE_OBJECT, PickSmState.APPROACH_OBJECT,
      PickSmState.GRASP_OBJECT, PickSmState.LIFT_OBJECT, PickSmWaitTime.REST,
      PickSmWaitTime.APPROACH_ABOVE_OBJECT, PickSmWaitTime.APPROACH_OBJECT,
      PickSmWaitTime.GRASP_OBJECT, PickSmWaitTime.LIFT_OBJECT]
  have h11 : ctrlIter (1/10) 11 = (1, 9/10) := by
    rw [show (11:ℕ) = 10+1 from rfl, ctrlIter, h10]
    norm_num [ctrlStep, ctrl, PickSmState.REST,
      PickSmState.APPROACH_ABOVE_OBJECT, PickSmState.APPROACH_OBJECT,
      PickSmState.GRASP_OBJECT, PickSmState.LIFT_OBJECT, PickSmWaitTime.REST,
      PickSmWaitTime.APPROACH_ABOVE_OBJECT, PickSmWaitTime.APPROACH_OBJECT,
      PickSmWaitTime.GRASP_OBJECT, PickSmWaitTime.LIFT_OBJECT]
  have h12 : ctrlIter (1/10) 12 = (1, 10/10) := by
    rw [show (12:ℕ) = 11+1 from rfl, ctrlIter, h11]
    norm_num [ctrlStep, ctrl, PickSmState.REST,
      PickSmState.APPROACH_ABOVE_OBJECT, PickSmState.APPROACH_OBJECT,
      PickSmState.GRASP_OBJECT, PickSmState.LIFT_OBJECT, PickSmWaitTime.REST,
      PickSmWaitTime.APPROACH_ABOVE_OBJECT, PickSmWaitTime.APPROACH_OBJECT,
      PickSmWaitTime.GRASP_OBJECT, PickSmWaitTime.LIFT_OBJECT]
  have h13 : ctrlIter (1/10) 13 = (1, 11/10) := by
    rw [show (13:ℕ) = 12+1 from rfl, ctrlIter, h12]
    norm_num [ctrlStep, ctrl, PickSmState.REST,
      PickSmState.APPROACH_ABOVE_OBJECT, PickSmState.APPROACH_OBJECT,
      PickSmState.GRASP_OBJECT, PickSmState.LIFT_OBJECT, PickSmWaitTime.REST,
      PickSmWaitTime.APPROACH_ABOVE_OBJECT, PickSmWaitTime.APPROACH_OBJECT,
      PickSmWaitTime.GRASP_OBJECT, PickSmWaitTime.LIFT_OBJECT]
  have h14 : ctrlIter (1/10) 14 = (1, 12/10) := by
    rw [show (14:ℕ) = 13+1 from rfl, ctrlIter, h13]
    norm_num [ctrlStep, ctrl, PickSmState.REST,
      PickSmState.APPROACH_ABOVE_OBJECT, PickSmState.APPROACH_OBJECT,
      PickSmState.GRASP_OBJECT, PickSmState.LIFT_OBJECT, PickSmWaitTime.REST,
      PickSmWaitTime.APPROACH_ABOVE_OBJECT, PickSmWaitTime.APPROACH_OBJECT,
      PickSmWaitTime.GRASP_OBJECT, PickSmWaitTime.LIFT_OBJECT]
  have h15 : ctrlIter (1/10) 15 = (1, 13/10) := by
    rw [show (15:ℕ) = 14+1 from rfl, ctrlIter, h14]
    norm_num [ctrlStep, ctrl, PickSmState.REST,
      PickSmState.APPROACH_ABOVE_OBJECT, PickSmState.APPROACH_OBJECT,
      PickSmState.GRASP_OBJECT, PickSmState.LIFT_OBJECT, PickSmWaitTime.REST,
      PickSmWaitTime.APPROACH_ABOVE_OBJECT, PickSmWaitTime.APPROACH_OBJECT,
      PickSmWaitTime.GRASP_OBJECT, PickSmWaitTime.LIFT_OBJECT]
  have h16 : ctrlIter (1/10) 16 = (1, 14/10) := by
    rw [show (16:ℕ) = 15+1 from rfl, ctrlIter, h15]
    norm_num [ctrlStep, ctrl, PickSmState.REST,
      PickSmState.APPROACH_ABOVE_OBJECT, PickSmState.APPROACH_OBJECT,
      PickSmState.GRASP_OBJECT, PickSmState.LIFT_OBJECT, PickSmWaitTime.REST,
      PickSmWaitTime.APPROACH_ABOVE_OBJECT, PickSmWaitTime.APPROACH_OBJECT,
      PickSmWaitTime.GRASP_OBJECT, PickSmWaitTime.LIFT_OBJECT]
  have h17 : ctrlIter (1/10) 17 = (1, 15/10) := by
    rw [show (17:ℕ) = 16+1 from rfl, ctrlIter, h16]
    norm_num [ctrlStep, ctrl, PickSmState.REST,
      PickSmState.APPROACH_ABOVE_OBJECT, PickSmState.APPROACH_OBJECT,
      PickSmState.GRASP_OBJECT, PickSmState.LIFT_OBJECT, PickSmWaitTime.REST,
      PickSmWaitTime.APPROACH_ABOVE_OBJECT, PickSmWaitTime.APPROACH_OBJECT,
      PickSmWaitTime.GRASP_OBJECT, PickSmWaitTime.LIFT_OBJECT]
  have h18 : ctrlIter (1/10) 18 = (2, 1/10) := by
    rw [show (18:ℕ) = 17+1 from rfl, ctrlIter, h17]
    norm_num [ctrlStep, ctrl, PickSmState.REST,
      PickSmState.APPROACH_ABOVE_OBJECT, PickSmState.APPROACH_OBJECT,
      PickSmState.GRASP_OBJECT, PickSmState.LIFT_OBJECT, PickSmWaitTime.REST,
      PickSmWaitTime.APPROACH_ABOVE_OBJECT, PickSmWaitTime.APPROACH_OBJECT,
      PickSmWaitTime.GRASP_OBJECT, PickSmWaitTime.LIFT_OBJECT]
  have h19 : ctrlIter (1/10) 19 = (2, 2/10) := by
    rw [show (19:ℕ) = 18+1 from rfl, ctrlIter, h18]
    norm_num [ctrlStep, ctrl, PickSmState.REST,
      PickSmState.APPROACH_ABOVE_OBJECT, PickSmState.APPROACH_OBJECT,
      PickSmState.GRASP_OBJECT, PickSmState.LIFT_OBJECT, PickSmWaitTime.REST,
      PickSmWaitTime.APPROACH_ABOVE_OBJECT, PickSmWaitTime.APPROACH_OBJECT,
      PickSmWaitTime.GRASP_OBJECT, PickSmWaitTime.LIFT_OBJECT]
  have h20 : ctrlIter (1/10) 20 = (2, 3/10) := by
    rw [show (20:ℕ) = 19+1 from rfl, ctrlIter, h19]
    norm_num [ctrlStep, ctrl, PickSmState.REST,
      PickSmState.APPROACH_ABOVE_OBJECT, PickSmState.APPROACH_OBJECT,
      PickSmState.GRASP_OBJECT, PickSmState.LIFT_OBJECT, PickSmWaitTime.REST,
      PickSmWaitTime.APPROACH_ABOVE_OBJECT, PickSmWaitTime.APPROACH_OBJECT,
      PickSmWaitTime.GRASP_OBJECT, PickSmWaitTime.LIFT_OBJECT]
  have h21 : ctrlIter (1/10) 21 = (2, 4/10) := by
    rw [show (21:ℕ) = 20+1 from rfl, ctrlIter, h20]
    norm_num [ctrlStep, ctrl, PickSmState.REST,
      PickSmState.APPROACH_ABOVE_OBJECT, PickSmState.APPROACH_OBJECT,
      PickSmState.GRASP_OBJECT, PickSmState.LIFT_OBJECT, PickSmWaitTime.REST,
      PickSmWaitTime.APPROACH_ABOVE_OBJECT, PickSmWaitTime.APPROACH_OBJECT,
      PickSmWaitTime.GRASP_OBJECT, PickSmWaitTime.LIFT_OBJECT]
  have h22 : ctrlIter (1/10) 22 = (2, 5/10) := by
    rw [show (22:ℕ) = 21+1 from rfl, ctrlIter, h21]
    norm_num [ctrlStep, ctrl, PickSmState.REST,
      PickSmState.APPROACH_ABOVE_OBJECT, PickSmState.APPROACH_OBJECT,
      PickSmState.GRASP_OBJECT, PickSmState.LIFT_OBJECT, PickSmWaitTime.REST,
      PickSmWaitTime.APPROACH_ABOVE_OBJECT, PickSmWaitTime.APPROACH_OBJECT,
      PickSmWaitTime.GRASP_OBJECT, PickSmWaitTime.LIFT_OBJECT]
  have h23 : ctrlIter (1/10) 23 = (2, 6/10) := by
    rw [show (23:ℕ) = 22+1 from rfl, ctrlIter, h22]
    norm_num [ctrlStep, ctrl, PickSmState.REST,
      PickSmState.APPROACH_ABOVE_OBJECT, PickSmState.APPROACH_OBJECT,
      PickSmState.GRASP_OBJECT, PickSmState.LIFT_OBJECT, PickSmWaitTime.REST,
      PickSmWaitTime.APPROACH_ABOVE_OBJECT, PickSmWaitTime.APPROACH_OBJECT,
      PickSmWaitTime.GRASP_OBJECT, PickSmWaitTime.LIFT_OBJECT]
  have h24 : ctrlIter (1/10) 24 = (2, 7/10) := by
    rw [show (24:ℕ) = 23+1 from rfl, ctrlIter, h23]
    norm_num [ctrlStep, ctrl, PickSmState.REST,
      PickSmState.APPROACH_ABOVE_OBJECT, PickSmState.APPROACH_OBJECT,
      PickSmState.GRASP_OBJECT, PickSmState.LIFT_OBJECT, PickSmWaitTime.REST,
      PickSmWaitTime.APPROACH_ABOVE_OBJECT, PickSmWaitTime.APPROACH_OBJECT,
      PickSmWaitTime.GRASP_OBJECT, PickSmWaitTime.LIFT_OBJECT]
  have h25 : ctrlIter (1/10) 25 = (2, 8/10) := by
    rw [show (25:ℕ) = 24+1 from rfl, ctrlIter, h24]
    norm_num [ctrlStep, ctrl, PickSmState.REST,
      PickSmState.APPROACH_ABOVE_OBJECT, PickSmState.APPROACH_OBJECT,
      PickSmState.GRASP_OBJECT, PickSmState.LIFT_OBJECT, PickSmWaitTime.REST,
      PickSmWaitTime.APPROACH_ABOVE_OBJECT, PickSmWaitTime.APPROACH_OBJECT,
      PickSmWaitTime.GRASP_OBJECT, PickSmWaitTime.LIFT_OBJECT]
  have h26 : ctrlIter (1/10) 26 = (2, 9/10) := by
    rw [show (26:ℕ) = 25+1 from rfl, ctrlIter, h25]
    norm_num [ctrlStep, ctrl, PickSmState.REST,
      PickSmState.APPROACH_ABOVE_OBJECT, PickSmState.APPROACH_OBJECT,
      PickSmState.GRASP_OBJECT, PickSmState.LIFT_OBJECT, PickSmWaitTime.REST,
      PickSmWaitTime.APPROACH_ABOVE_OBJECT, PickSmWaitTime.APPROACH_OBJECT,
      PickSmWaitTime.GRASP_OBJECT, PickSmWaitTime.LIFT_OBJECT]
  have h27 : ctrlIter (1/10) 27 = (2, 10/10) := by
    rw [show (27:ℕ) = 26+1 from rfl, ctrlIter, h26]
    norm_num [ctrlStep, ctrl, PickSmState.REST,
      PickSmState.APPROACH_ABOVE_OBJECT, PickSmState.APPROACH_OBJECT,
      PickSmState.GRASP_OBJECT, PickSmState.LIFT_OBJECT, PickSmWaitTime.REST,
      PickSmWaitTime.APPROACH_ABOVE_OBJECT, PickSmWaitTime.APPROACH_OBJECT,
      PickSmWaitTime.GRASP_OBJECT, PickSmWaitTime.LIFT_OBJECT]
  have h28 : ctrlIter (1/10) 28 = (2, 11/10) := by
    rw [show (28:ℕ) = 27+1 from rfl, ctrlIter, h27]
    norm_num [ctrlStep, ctrl, PickSmState.REST,
      PickSmState.APPROACH_ABOVE_OBJECT, PickSmState.APPROACH_OBJECT,
      PickSmState.GRASP_OBJECT, PickSmState.LIFT_OBJECT, PickSmWaitTime.REST,
      PickSmWaitTime.APPROACH_ABOVE_OBJECT, PickSmWaitTime.APPROACH_OBJECT,
      PickSmWaitTime.GRASP_OBJECT, PickSmWaitTime.LIFT_OBJECT]
  have h29 : ctrlIter (1/10) 29 = (2, 12/10) := by
    rw [show (29:ℕ) = 28+1 from rfl, ctrlIter, h28]
    norm_num [ctrlStep, ctrl, PickSmState.REST,
      PickSmState.APPROACH_ABOVE_OBJECT, PickSmState.APPROACH_OBJECT,
      PickSmState.GRASP_OBJECT, PickSmState.LIFT_OBJECT, PickSmWaitTime.REST,
      PickSmWaitTime.APPROACH_ABOVE_OBJECT, PickSmWaitTime.APPROACH_OBJECT,
      PickSmWaitTime.GRASP_OBJECT, PickSmWaitTime.LIFT_OBJECT]
  have h30 : ctrlIter (1/10) 30 = (2, 13/10) := by
    rw [show (30:ℕ) = 29+1 from rfl, ctrlIter, h29]
    norm_num [ctrlStep, ctrl, PickSmState.REST,
      PickSmState.APPROACH_ABOVE_OBJECT, PickSmState.APPROACH_OBJECT,
      PickSmState.GRASP_OBJECT, PickSmState.LIFT_OBJECT, PickSmWaitTime.REST,
      PickSmWaitTime.APPROACH_ABOVE_OBJECT, PickSmWaitTime.APPROACH_OBJECT,
      PickSmWaitTime.GRASP_OBJECT, PickSmWaitTime.LIFT_OBJECT]
  have h31 : ctrlIter (1/10) 31 = (2, 14/10) := by
    rw [show (31:ℕ) = 30+1 from rfl, ctrlIter, h30]
    norm_num [ctrlStep, ctrl, PickSmState.REST,
      PickSmState.APPROACH_ABOVE_OBJECT, PickSmState.APPROACH_OBJECT,
      PickSmState.GRASP_OBJECT, PickSmState.LIFT_OBJECT, PickSmWaitTime.REST,
      PickSmWaitTime.APPROACH_ABOVE_OBJECT, PickSmWaitTime.APPROACH_OBJECT,
      PickSmWaitTime.GRASP_OBJECT, PickSmWaitTime.LIFT_OBJECT]
  have h32 : ctrlIter (1/10) 32 = (2, 15/10) := by
    rw [show (32:ℕ) = 31+1 from rfl, ctrlIter, h31]
    norm_num [ctrlStep, ctrl, PickSmState.REST,
      PickSmState.APPROACH_ABOVE_OBJECT, PickSmState.APPROACH_OBJECT,
      PickSmState.GRASP_OBJECT, PickSmState.LIFT_OBJECT, PickSmWaitTime.REST,
      PickSmWaitTime.APPROACH_ABOVE_OBJECT, PickSmWaitTime.APPROACH_OBJECT,
      PickSmWaitTime.GRASP_OBJECT, PickSmWaitTime.LIFT_OBJECT]
  have h33 : ctrlIter (1/10) 33 = (3, 1/10) := by
    rw [show (33:ℕ) = 32+1 from rfl, ctrlIter, h32]
    norm_num [ctrlStep, ctrl, PickSmState.REST,
      PickSmState.APPROACH_ABOVE_OBJECT, PickSmState.APPROACH_OBJECT,
      PickSmState.GRASP_OBJECT, PickSmState.LIFT_OBJECT, PickSmWaitTime.REST,
      PickSmWaitTime.APPROACH_ABOVE_OBJECT, PickSmWaitTime.APPROACH_OBJECT,
      PickSmWaitTime.GRASP_OBJECT, PickSmWaitTime.LIFT_OBJECT]
  have h34 : ctrlIter (1/10) 34 = (3, 2/10) := by
    rw [show (34:ℕ) = 33+1 from rfl, ctrlIter, h33]
    norm_num [ctrlStep, ctrl, PickSmState.REST,
      PickSmState.APPROACH_ABOVE_OBJECT, PickSmState.APPROACH_OBJECT,
      PickSmState.GRASP_OBJECT, PickSmState.LIFT_OBJECT, PickSmWaitTime.REST,
      PickSmWaitTime.APPROACH_ABOVE_OBJECT, PickSmWaitTime.APPROACH_OBJECT,
      PickSmWaitTime.GRASP_OBJECT, PickSmWaitTime.LIFT_OBJECT]
  have h35 : ctrlIter (1/10) 35 = (3, 3/10) := by
    rw [show (35:ℕ) = 34+1 from rfl, ctrlIter, h34]
    norm_num [ctrlStep, ctrl, PickSmState.REST,
      PickSmState.APPROACH_ABOVE_OBJECT, PickSmState.APPROACH_OBJECT,
      PickSmState.GRASP_OBJECT, PickSmState.LIFT_OBJECT, PickSmWaitTime.REST,
      PickSmWaitTime.APPROACH_ABOVE_OBJECT, PickSmWaitTime.APPROACH_OBJECT,
      PickSmWaitTime.GRASP_OBJECT, PickSmWaitTime.LIFT_OBJECT]
  have h36 : ctrlIter (1/10) 36 = (3, 4/10) := by
    rw [show (36:ℕ) = 35+1 from rfl, ctrlIter, h35]
    norm_num [ctrlStep, ctrl, PickSmState.REST,
      PickSmState.APPROACH_ABOVE_OBJECT, PickSmState.APPROACH_OBJECT,
      PickSmState.GRASP_OBJECT, PickSmState.LIFT_OBJECT, PickSmWaitTime.REST,
      PickSmWaitTime.APPROACH_ABOVE_OBJECT, PickSmWaitTime.APPROACH_OBJECT,
      PickSmWaitTime.GRASP_OBJECT, PickSmWaitTime.LIFT_OBJECT]
  have h37 : ctrlIter (1/10) 37 = (3, 5/10) := by
    rw [show (37:ℕ) = 36+1 from rfl, ctrlIter, h36]
    norm_num [ctrlStep, ctrl, PickSmState.REST,
      PickSmState.APPROACH_ABOVE_OBJECT, PickSmState.APPROACH_OBJECT,
      PickSmState.GRASP_OBJECT, PickSmState.LIFT_OBJECT, PickSmWaitTime.REST,
      PickSmWaitTime.APPROACH_ABOVE_OBJECT, PickSmWaitTime.APPROACH_OBJECT,
      PickSmWaitTime.GRASP_OBJECT, PickSmWaitTime.LIFT_OBJECT]
  have h38 : ctrlIter (1/10) 38 = (4, 1/10) := by
    rw [show (38:ℕ) = 37+1 from rfl, ctrlIter, h37]
    norm_num [ctrlStep, ctrl, PickSmState.REST,
      PickSmState.APPROACH_ABOVE_OBJECT, PickSmState.APPROACH_OBJECT,
      PickSmState.GRASP_OBJECT, PickSmState.LIFT_OBJECT, PickSmWaitTime.REST,
      PickSmWaitTime.APPROACH_ABOVE_OBJECT, PickSmWaitTime.APPROACH_OBJECT,
      PickSmWaitTime.GRASP_OBJECT, PickSmWaitTime.LIFT_OBJECT]
  intro n hn
  interval_cases n
  · exact (congrArg Prod.fst h0).trans (by norm_num [dt10_expected])
  · exact (congrArg Prod.fst h1).trans (by norm_num [dt10_expected])
  · exact (congrArg Prod.fst h2).trans (by norm_num [dt10_expected])
  · exact (congrArg Prod.fst h3).trans (by norm_num [dt10_expected])
  · exact (congrArg Prod.fst h4).trans (by norm_num [dt10_expected])
  · exact (congrArg Prod.fst h5).trans (by norm_num [dt10_expected])
  · exact (congrArg Prod.fst h6).trans (by norm_num [dt10_expected])
  · exact (congrArg Prod.fst h7).trans (by norm_num [dt10_expected])
  · exact (congrArg Prod.fst h8).trans (by norm_num [dt10_expected])
  · exact (congrArg Prod.fst h9).trans (by norm_num [dt10_expected])
  · exact (congrArg Prod.fst h10).trans (by norm_num [dt10_expected])
  · exact (congrArg Prod.fst h11).trans (by norm_num [dt10_expected])
  · exact (congrArg Prod.fst h12).trans (by norm_num [dt10_expected])
  · exact (congrArg Prod.fst h13).trans (by norm_num [dt10_expected])
  · exact (congrArg Prod.fst h14).trans (by norm_num [dt10_expected])
  · exact (congrArg Prod.fst h15).trans (by norm_num [dt10_expected])
  · exact (congrArg Prod.fst h16).trans (by norm_num [dt10_expected])
  · exact (congrArg Prod.fst h17).trans (by norm_num [dt10_expected])
  · exact (congrArg Prod.fst h18).trans (by norm_num [dt10_expected])
  · exact (congrArg Prod.fst h19).trans (by norm_num [dt10_expected])
  · exact (congrArg Prod.fst h20).trans (by norm_num [dt10_expected])
  · exact (congrArg Prod.fst h21).trans (by norm_num [dt10_expected])
  · exact (congrArg Prod.fst h22).trans (by norm_num [dt10_expected])
  · exact (congrArg Prod.fst h23).trans (by norm_num [dt10_expected])
  · exact (congrArg Prod.fst h24).trans (by norm_num [dt10_expected])
  · exact (congrArg Prod.fst h25).trans (by norm_num [dt10_expected])
  · exact (congrArg Prod.fst h26).trans (by norm_num [dt10_expected])
  · exact (congrArg Prod.fst h27).trans (by norm_num [dt10_expected])
  · exact (congrArg Prod.fst h28).trans (by norm_num [dt10_expected])
  · exact (congrArg Prod.fst h29).trans (by norm_num [dt10_expected])
  · exact (congrArg Prod.fst h30).trans (by norm_num [dt10_expected])
  · exact (congrArg Prod.fst h31).trans (by norm_num [dt10_expected])
  · exact (congrArg Prod.fst h32).trans (by norm_num [dt10_expected])
  · exact (congrArg Prod.fst h33).trans (by norm_num [dt10_expected])
  · exact (congrArg Prod.fst h34).trans (by norm_num [dt10_expected])
  · exact (congrArg Prod.fst h35).trans (by norm_num [dt10_expected])
  · exact (congrArg Prod.fst h36).trans (by norm_num [dt10_expected])
  · exact (congrArg Prod.fst h37).trans (by norm_num [dt10_expected])
  · exact (congrArg Prod.fst h38).trans (by norm_num [dt10_expected])

/-- C1 is false as stated: with the object rotated 180° about x
(orientation `(w,x,y,z) = (0,1,0,0)`) and at the origin, the kernel's
APPROACH_ABOVE_OBJECT branch emits position `(0, 0, 0.1)` (the offset added
in the world frame), while `combine(object_pose, approach_offset)` — the
offset position rotated by the object orientation and added to the object
position — gives `(0, 0, -0.1)`. -/
theorem c1_counterexample :
    (infer_state_machine (1/100)
        ⟨PickSmState.APPROACH_ABOVE_OBJECT, 0, zeroTransform, 0⟩
        zeroTransform ⟨⟨0,0,0⟩, ⟨0,1,0,0⟩⟩ zeroTransform approach_offset).desEePose
      ≠ combine_spec ⟨⟨0,0,0⟩, ⟨0,1,0,0⟩⟩ approach_offset
    ∧ (infer_state_machine (1/100)
        ⟨PickSmState.APPROACH_ABOVE_OBJECT, 0, zeroTransform, 0⟩
        zeroTransform ⟨⟨0,0,0⟩, ⟨0,1,0,0⟩⟩ zeroTransform approach_offset).desEePose.p
      = ⟨0, 0, 1/10⟩
    ∧ (combine_spec ⟨⟨0,0,0⟩, ⟨0,1,0,0⟩⟩ approach_offset).p = ⟨0, 0, -(1/10)⟩ := by
  refine ⟨?_, ?_, ?_⟩
  all_goals norm_num [infer_state_machine, infer_branch, approach_offset,
    transform_multiply, combine_spec, quat_rotate, quat_mul, quat_vec,
    vec3_add, vec3_scale, vec3_cross, vec3_dot, zeroTransform,
    PickSmState.REST, PickSmState.APPROACH_ABOVE_OBJECT,
    PickSmWaitTime.APPROACH_OBJECT, GripperState.OPEN]

/-- C1 (amended): in APPROACH_ABOVE_OBJECT the kernel emits
`wp.transform_multiply(offset, object_pose)`; with the controller's offset
`((0, 0, 0.1), identity)` that is the object position shifted by `(0, 0, 0.1)`
in the world frame, with the object's orientation — i.e.
`combine(approach_offset, object_pose)` with the arguments in the opposite
order to the spec's table. -/
theorem c1_approach_above_world_offset (dt : ℚ) (c : SmCell)
    (ee op dop : WpTransform ℚ)
    (h : c.smState = PickSmState.APPROACH_ABOVE_OBJECT) :
    (infer_state_machine dt c ee op dop approach_offset).desEePose
      = ⟨⟨op.p.x, op.p.y, op.p.z + 1/10⟩, op.q⟩
    ∧ (infer_state_machine dt c ee op dop approach_offset).desEePose
      = combine_spec approach_offset op := by
  have hne : ¬ c.smState = PickSmState.REST := by
    rw [h]; decide
  have hdes : (infer_state_machine dt c ee op dop approach_offset).desEePose
      = transform_multiply approach_offset op := by
    unfold infer_state_machine infer_branch
    rw [if_neg hne, if_pos h]
    split <;> rfl
  rw [hdes]
  constructor
  all_goals
    cases op with
    | mk p q =>
        cases p
        cases q
        norm_num [transform_multiply, combine_spec, quat_rotate, quat_mul,
          quat_vec, vec3_add, vec3_scale, vec3_cross, vec3_dot, approach_offset]
        try ring_nf
        try norm_num

/-- Witness for C1 (amended) at a concrete input. -/
theorem c1_witness :
    (infer_state_machine 1 ⟨PickSmState.APPROACH_ABOVE_OBJECT, 0, zeroTransform, 0⟩
        zeroTransform zeroTransform zeroTransform approach_offset).desEePose
      = ⟨⟨0, 0, 0 + 1/10⟩, ⟨0, 0, 0, 0⟩⟩ :=
  (c1_approach_above_world_offset 1
    ⟨PickSmState.APPROACH_ABOVE_OBJECT, 0, zeroTransform, 0⟩
    zeroTransform zeroTransform zeroTransform rfl).1

/-- C2 is false as stated: with `dt = 0.01` and no reset, after the 20th call
to `compute` the state is still REST (the transition test compares the
pre-increment wait time, which first reaches 0.20 at the start of tick 21). -/
theorem c2_counterexample :
    (runTicks (1/100)
        (fun _ => (zeroTransform, zeroTransform, zeroTransform, approach_offset))
        initCell 20).smState = PickSmState.REST := by
  have h : (runTicks (1/100)
      (fun _ => (zeroTransform, zeroTransform, zeroTransform, approach_offset))
      initCell 20).smState = (ctrlIter (1/100) 20).1 :=
    congrArg Prod.fst (runTicks_proj (1/100) _ 20)
  rw [h, ctrlIter_dt100_table 20 (by norm_num)]
  norm_num [dt100_expected, PickSmState.REST]

/-- C2 (amended): with `dt = 0.01` and no reset the REST →
APPROACH_ABOVE_OBJECT transition fires on the 21st call to `compute`: after
every `n ≤ 20` calls the state is REST with wait time `n/100` (so the wait
reaches 0.20 at the end of tick 20), and after call 21 the state is
APPROACH_ABOVE_OBJECT. -/
theorem c2_rest_to_approach_on_tick21
    (ins : ℕ → WpTransform ℚ × WpTransform ℚ × WpTransform ℚ × WpTransform ℚ) :
    (∀ n, n ≤ 20 →
      (runTicks (1/100) ins initCell n).smState = PickSmState.REST
        ∧ (runTicks (1/100) ins initCell n).smWaitTime = (n : ℚ)/100)
    ∧ (runTicks (1/100) ins initCell 21).smState
        = PickSmState.APPROACH_ABOVE_OBJECT := by
  constructor
  · intro n hn
    have hs : (runTicks (1/100) ins initCell n).smState = (ctrlIter (1/100) n).1 :=
      congrArg Prod.fst (runTicks_proj (1/100) ins n)
    have hw : (runTicks (1/100) ins initCell n).smWaitTime = (ctrlIter (1/100) n).2 :=
      congrArg Prod.snd (runTicks_proj (1/100) ins n)
    constructor
    · rw [hs, ctrlIter_dt100_table n (by omega)]
      simp [dt100_expected, hn, PickSmState.REST]
    · rw [hw, ctrlIter_dt100_table n (by omega)]
      simp [dt100_expected, hn]
  · have hs : (runTicks (1/100) ins initCell 21).smState = (ctrlIter (1/100) 21).1 :=
      congrArg Prod.fst (runTicks_proj (1/100) ins 21)
    rw [hs, ctrlIter_dt100_table 21 (by norm_num)]
    norm_num [dt100_expected, PickSmState.APPROACH_ABOVE_OBJECT]

/-- Witness for C2 (amended) at a concrete input stream. -/
theorem c2_witness :
    (runTicks (1/100)
        (fun _ => (zeroTransform, zeroTransform, zeroTransform, approach_offset))
        initCell 21).smState = PickSmState.APPROACH_ABOVE_OBJECT :=
  (c2_rest_to_approach_on_tick21 _).2

/-- C3: every tick the transition decision is taken on the pre-increment wait
time and `dt` is added afterwards: the post-tick wait time is
`(0 if the guard fired else the old wait time) + dt`; in particular on a
transition tick the wait time ends at `dt`, not 0. -/
theorem c3_wait_incremented_after_branch (dt : ℚ) (c : SmCell)
    (ee op dop off : WpTransform ℚ) :
    (infer_state_machine dt c ee op dop off).smWaitTime
      = (if transition_fires c.smState c.smWaitTime then 0 else c.smWaitTime) + dt
    ∧ (transition_fires c.smState c.smWaitTime = true →
        (infer_state_machine dt c ee op dop off).smWaitTime = dt) := by
  have main : (infer_state_machine dt c ee op dop off).smWaitTime
      = (if transition_fires c.smState c.smWaitTime then 0 else c.smWaitTime) + dt := by
    unfold infer_state_machine infer_branch transition_fires
    repeat' split
    all_goals try simp_all
    all_goals linarith
  exact ⟨main, fun hf => by rw [main, if_pos hf, zero_add]⟩

/-- Witness for C3 at a concrete transition tick: in REST with wait 0.2 the
guard fires, and the wait time after the tick equals `dt = 1`, not 0. -/
theorem c3_witness :
    (infer_state_machine 1 ⟨PickSmState.REST, 1/5, zeroTransform, 0⟩
        zeroTransform zeroTransform zeroTransform approach_offset).smWaitTime = 1 :=
  (c3_wait_incremented_after_branch 1 ⟨PickSmState.REST, 1/5, zeroTransform, 0⟩
    zeroTransform zeroTransform zeroTransform approach_offset).2
    (by simp [transition_fires, PickSmState.REST, PickSmWaitTime.REST])

/-- C4: stepping any environment with `dt = 0.1` from REST without reset
passes through REST, APPROACH_ABOVE_OBJECT, APPROACH_OBJECT, GRASP_OBJECT in
that order, first reaches LIFT_OBJECT on tick 38 (≥ 37) and stays in
LIFT_OBJECT from tick 38 on, and on every tick of the unbounded run the
gripper command is OPEN when the tick is spent in one of the first three
states and CLOSE when it is spent in GRASP_OBJECT or LIFT_OBJECT. -/
theorem c4_full_sequence
    (ins : ℕ → WpTransform ℚ × WpTransform ℚ × WpTransform ℚ × WpTransform ℚ) :
    ((runTicks (1/10) ins initCell 0).smState = PickSmState.REST
      ∧ (runTicks (1/10) ins initCell 3).smState = PickSmState.APPROACH_ABOVE_OBJECT
      ∧ (runTicks (1/10) ins initCell 18).smState = PickSmState.APPROACH_OBJECT
      ∧ (runTicks (1/10) ins initCell 33).smState = PickSmState.GRASP_OBJECT
      ∧ (runTicks (1/10) ins initCell 38).smState = PickSmState.LIFT_OBJECT)
    ∧ (∀ n, n ≤ 37 →
        (runTicks (1/10) ins initCell n).smState ≠ PickSmState.LIFT_OBJECT)
    ∧ (∀ n, 38 ≤ n →
        (runTicks (1/10) ins initCell n).smState = PickSmState.LIFT_OBJECT)
    ∧ (∀ n,
        (runTicks (1/10) ins initCell (n+1)).gripper =
          (if (runTicks (1/10) ins initCell n).smState = PickSmState.GRASP_OBJECT
              ∨ (runTicks (1/10) ins initCell n).smState = PickSmState.LIFT_OBJECT
            then GripperState.CLOSE else GripperState.OPEN)) := by
  have hstate : ∀ n, (runTicks (1/10) ins initCell n).smState = (ctrlIter (1/10) n).1 :=
    fun n => congrArg Prod.fst (runTicks_proj (1/10) ins n)
  have h38 : (runTicks (1/10) ins initCell 38).smState = PickSmState.LIFT_OBJECT := by
    rw [hstate 38, ctrlIter_dt10_table 38 (by norm_num)]
    norm_num [dt10_expected, PickSmState.LIFT_OBJECT]
  have hlift : ∀ n, 38 ≤ n →
      (runTicks (1/10) ins initCell n).smState = PickSmState.LIFT_OBJECT := by
    intro n hn
    induction n with
    | zero => omega
    | succ k ih =>
        by_cases hk : 38 ≤ k
        · exact lift_step (1/10) (runTicks (1/10) ins initCell k)
            (ins k).1 (ins k).2.1 (ins k).2.2.1 (ins k).2.2.2 (ih hk)
        · have hk38 : k + 1 = 38 := by omega
          rw [hk38]
          exact h38
  refine ⟨⟨?_, ?_, ?_, ?_, ?_⟩, ?_, hlift, ?_⟩
  · rw [hstate 0, ctrlIter_dt10_table 0 (by norm_num)]
    norm_num [dt10_expected, PickSmState.REST]
  · rw [hstate 3, ctrlIter_dt10_table 3 (by norm_num)]
    norm_num [dt10_expected, PickSmState.APPROACH_ABOVE_OBJECT]
  · rw [hstate 18, ctrlIter_dt10_table 18 (by norm_num)]
    norm_num [dt10_expected, PickSmState.APPROACH_OBJECT]
  · rw [hstate 33, ctrlIter_dt10_table 33 (by norm_num)]
    norm_num [dt10_expected, PickSmState.GRASP_OBJECT]
  · rw [hstate 38, ctrlIter_dt10_table 38 (by norm_num)]
    norm_num [dt10_expected, PickSmState.LIFT_OBJECT]
  · intro n hn
    rw [hstate n, ctrlIter_dt10_table n (by omega)]
    simp only [dt10_expected, PickSmState.LIFT_OBJECT]
    split_ifs <;> omega
  · intro n
    have hg := infer_gripper (1/10) (runTicks (1/10) ins initCell n)
      (ins n).1 (ins n).2.1 (ins n).2.2.1 (ins n).2.2.2
    have hr : runTicks (1/10) ins initCell (n+1)
        = infer_state_machine (1/10) (runTicks (1/10) ins initCell n)
            (ins n).1 (ins n).2.1 (ins n).2.2.1 (ins n).2.2.2 := rfl
    by_cases hn : n ≤ 37
    · rw [hr, hg, hstate n, ctrlIter_dt10_table n (by omega)]
      simp only [dt10_expected, PickSmState.REST, PickSmState.APPROACH_ABOVE_OBJECT,
        PickSmState.APPROACH_OBJECT, PickSmState.GRASP_OBJECT, PickSmState.LIFT_OBJECT]
      split_ifs <;> first | rfl | omega
    · rw [hr, hg, hlift n (by omega)]
      norm_num [PickSmState.REST, PickSmState.APPROACH_ABOVE_OBJECT,
        PickSmState.APPROACH_OBJECT, PickSmState.GRASP_OBJECT,
        PickSmState.LIFT_OBJECT]

/-- Witness for C4 at a concrete input stream. -/
theorem c4_witness :
    (runTicks (1/10)
        (fun _ => (zeroTransform, zeroTransform, zeroTransform, approach_offset))
        initCell 38).smState = PickSmState.LIFT_OBJECT :=
  (c4_full_sequence _).1.2.2.2.2

/-- C5 is false in one detail: the cube profile's yaw offset is the source
literal `1.5707963`, which is not `π/2` (it is a truncation of it). -/
theorem c5_counterexample :
    (set_task_config "cube").map TaskOffset.yaw = some (15707963/10000000 : ℚ)
    ∧ ((15707963/10000000 : ℚ) : ℝ) ≠ Real.pi / 2 := by
  constructor
  · rw [set_task_config, if_pos (by decide)]
    rfl
  · intro hq
    have hpi : Real.pi = ((15707963/5000000 : ℚ) : ℝ) := by
      push_cast at hq ⊢
      linarith
    exact irrational_pi ⟨_, hpi.symm⟩

/-- C5 (amended): task resolution is a case-insensitive substring match; a
name containing "cube" yields lateral 0.15, vertical −0.005 and yaw offset
1.5707963 (the source's decimal approximation of π/2), and construction
fails (raises) iff the name contains neither "cube" nor "bin". -/
theorem c5_task_resolution (task : String) :
    (contains_sub "cube".toList (task.toList.map Char.toLower) = true →
      set_task_config task = some ⟨0, 15/100, -(5/1000), 0, 0, 15707963/10000000⟩)
    ∧ (set_task_config task = none ↔
        (contains_sub "cube".toList (task.toList.map Char.toLower) = false
          ∧ contains_sub "bin".toList (task.toList.map Char.toLower) = false)) := by
  constructor
  · intro h
    rw [set_task_config, if_pos h]
  · rw [set_task_config]
    split_ifs with h1 h2 <;> simp_all

/-- Witness for C5 (amended): a mixed-case task name containing "Cube". -/
theorem c5_witness :
    set_task_config "Isaac-Lift-Cube-R1-v0"
      = some ⟨0, 15/100, -(5/1000), 0, 0, 15707963/10000000⟩ :=
  (c5_task_resolution "Isaac-Lift-Cube-R1-v0").1 (by decide)

/-- C6: in the dual-arm `generate_actions` derivation the left grasp offset
is `(0, +lateral, vertical)` and the right `(0, -lateral, vertical)`; the
left goal position is the shared target shifted by `+lateral` on axis 1 and
the right by `-lateral`; the left orientation is built from
`object_yaw - task.yaw` and the right from `object_yaw + task.yaw`; and for
an object at identity pose (zero yaw) the two arms' grasp positions, goal
positions and orientations are mirror images. -/
theorem c6_dual_arm_symmetry (g objPos : Vec3 ℝ) (objQuat : Quat ℝ)
    (objYaw : ℝ) (t : TaskOffset ℝ) :
    (left_object_position objPos objQuat t
        = combine_frame_transforms_pos objPos objQuat ⟨0, t.lateral, t.vertical⟩
      ∧ right_object_position objPos objQuat t
        = combine_frame_transforms_pos objPos objQuat ⟨0, -t.lateral, t.vertical⟩)
    ∧ (left_object_position ⟨0, 0, 0⟩ ⟨1, 0, 0, 0⟩ t = ⟨0, t.lateral, t.vertical⟩
      ∧ right_object_position ⟨0, 0, 0⟩ ⟨1, 0, 0, 0⟩ t = ⟨0, -t.lateral, t.vertical⟩)
    ∧ (left_desired_position g t = ⟨g.x, g.y + t.lateral, g.z⟩
      ∧ right_desired_position g t = ⟨g.x, g.y - t.lateral, g.z⟩)
    ∧ (l_orientation_offset_quat Real.cos Real.sin objYaw t
        = quat_from_euler_xyz Real.cos Real.sin (objYaw - t.yaw) 0 0
      ∧ r_orientation_offset_quat Real.cos Real.sin objYaw t
        = quat_from_euler_xyz Real.cos Real.sin (objYaw + t.yaw) 0 0)
    ∧ ((l_orientation_offset_quat Real.cos Real.sin 0 t).w
          = (r_orientation_offset_quat Real.cos Real.sin 0 t).w
      ∧ (l_orientation_offset_quat Real.cos Real.sin 0 t).x
          = -(r_orientation_offset_quat Real.cos Real.sin 0 t).x
      ∧ (l_orientation_offset_quat Real.cos Real.sin 0 t).y = 0
      ∧ (l_orientation_offset_quat Real.cos Real.sin 0 t).z = 0
      ∧ (r_orientation_offset_quat Real.cos Real.sin 0 t).y = 0
      ∧ (r_orientation_offset_quat Real.cos Real.sin 0 t).z = 0) := by
  refine ⟨⟨rfl, rfl⟩, ⟨?_, ?_⟩, ⟨rfl, rfl⟩, ⟨rfl, rfl⟩, ?_, ?_, ?_, ?_, ?_, ?_⟩
  all_goals
    simp [left_object_position, right_object_position,
      combine_frame_transforms_pos, quat_apply, quat_vec, vec3_add, vec3_scale,
      vec3_cross, l_orientation_offset_quat, r_orientation_offset_quat,
      quat_from_euler_xyz, Real.cos_zero, Real.sin_zero, Real.cos_neg,
      Real.sin_neg, zero_sub, neg_mul, zero_mul, mul_zero]

/-- C7: the single-arm variant's `generate_actions` concatenates the fixed
left-arm row with the hard-coded single-row gripper tensor `[[1.0]]`; with
two environments `torch.cat` fails on the row-count mismatch (modelled as
`none`), and with one environment the row is the left rest pose followed by
gripper OPEN followed by the right-arm action. -/
theorem c7_single_arm_batch :
    rightArmSm_generate_actions
        [[0,0,0],[0,0,0]] [[1,0,0,0],[1,0,0,0]]
        [[0,0,0,0,0,0,0,0],[0,0,0,0,0,0,0,0]] = none
    ∧ rightArmSm_generate_actions [[5,6,7]] [[1,0,0,0]] [[9,8,7,6,5,4,3,2]]
      = some [[5,6,7,1,0,0,0,1,9,8,7,6,5,4,3,2]]
    ∧ (rightArmSm_generate_actions [[5,6,7]] [[1,0,0,0]]
        [[9,8,7,6,5,4,3,2]]).map (fun m => m.map (fun row => row.take 8))
      = some [[5,6,7,1,0,0,0,GripperState.OPEN]] := by
  refine ⟨?_, ?_, ?_⟩
  all_goals norm_num [rightArmSm_generate_actions, rightArmSm_left_actions,
    torch_cat2, Option.bind, GripperState.OPEN]

/-- C8: `reset_idx` sets state REST and wait time 0 for exactly the listed
environments, leaves every other environment untouched, resets every
environment when called without indices, and is idempotent. -/
theorem c8_reset_frame (ids : List ℕ) (batch : ℕ → SmCell) (i : ℕ) :
    (i ∈ ids → reset_idx (some ids) batch i
        = { batch i with smState := PickSmState.REST, smWaitTime := 0 })
    ∧ (i ∉ ids → reset_idx (some ids) batch i = batch i)
    ∧ reset_idx none batch i
        = { batch i with smState := PickSmState.REST, smWaitTime := 0 }
    ∧ (∀ o, reset_idx o (reset_idx o batch) = reset_idx o batch) := by
  refine ⟨fun h => ?_, fun h => ?_, rfl, fun o => ?_⟩
  · simp [reset_idx, h, PickSmState.REST]
  · simp [reset_idx, h]
  · funext j
    cases o with
    | none => rfl
    | some l =>
        by_cases hj : j ∈ l <;> simp [reset_idx, hj]

/-- Witness for C8 at a concrete batch: resetting `{0}` rewrites environment
0 to `(REST, 0)`. -/
theorem c8_witness :
    reset_idx (some [0]) (fun _ => ⟨4, 7, zeroTransform, 0⟩) 0
      = ⟨PickSmState.REST, 0, zeroTransform, 0⟩ :=
  (c8_reset_frame [0] (fun _ => ⟨4, 7, zeroTransform, 0⟩) 0).1 (by decide)

/-- C9: LIFT_OBJECT is absorbing: a tick in LIFT_OBJECT stays in
LIFT_OBJECT, emits the goal object pose with gripper CLOSE, re-arms the wait
timer (to 0, before the dt increment) exactly when the pre-increment wait
time has reached 1.0 s, and every number of further ticks leaves the state
LIFT_OBJECT. -/
theorem c9_lift_absorbing (dt : ℚ) (c : SmCell) (ee op dop off : WpTransform ℚ)
    (h : c.smState = PickSmState.LIFT_OBJECT) :
    (infer_state_machine dt c ee op dop off).smState = PickSmState.LIFT_OBJECT
    ∧ (infer_state_machine dt c ee op dop off).desEePose = dop
    ∧ (infer_state_machine dt c ee op dop off).gripper = GripperState.CLOSE
    ∧ (infer_state_machine dt c ee op dop off).smWaitTime
        = (if c.smWaitTime ≥ PickSmWaitTime.LIFT_OBJECT then 0 else c.smWaitTime) + dt
    ∧ (∀ ins n, (runTicks dt ins c n).smState = PickSmState.LIFT_OBJECT) := by
  have h0 : ¬ c.smState = PickSmState.REST := by rw [h]; decide
  have h1 : ¬ c.smState = PickSmState.APPROACH_ABOVE_OBJECT := by rw [h]; decide
  have h2 : ¬ c.smState = PickSmState.APPROACH_OBJECT := by rw [h]; decide
  have h3 : ¬ c.smState = PickSmState.GRASP_OBJECT := by rw [h]; decide
  refine ⟨lift_step dt c ee op dop off h, ?_, ?_, ?_, ?_⟩
  · unfold infer_state_machine infer_branch
    rw [if_neg h0, if_neg h1, if_neg h2, if_neg h3, if_pos h]
    split <;> rfl
  · unfold infer_state_machine infer_branch
    rw [if_neg h0, if_neg h1, if_neg h2, if_neg h3, if_pos h]
    split <;> rfl
  · unfold infer_state_machine infer_branch
    rw [if_neg h0, if_neg h1, if_neg h2, if_neg h3, if_pos h]
    split_ifs with hw <;> simp [hw]
  · intro ins n
    induction n with
    | zero => exact h
    | succ k ih =>
        exact lift_step dt (runTicks dt ins c k)
          (ins k).1 (ins k).2.1 (ins k).2.2.1 (ins k).2.2.2 ih

/-- Witness for C9 at a concrete cell in LIFT_OBJECT. -/
theorem c9_witness :
    (infer_state_machine 1 ⟨PickSmState.LIFT_OBJECT, 0, zeroTransform, 0⟩
        zeroTransform zeroTransform zeroTransform approach_offset).smState
      = PickSmState.LIFT_OBJECT :=
  (c9_lift_absorbing 1 ⟨PickSmState.LIFT_OBJECT, 0, zeroTransform, 0⟩
    zeroTransform zeroTransform zeroTransform approach_offset rfl).1

/-- C10: after construction and after any sequence of compute and reset
calls the state is one of the five enum values and the wait time is
non-negative; immediately after a compute tick (with `dt > 0`) the wait time
is strictly positive. -/
theorem c10_invariant (dt : ℚ) (ops : List SmOp) (hdt : 0 < dt) :
    ((execOps dt initCell ops).smState = PickSmState.REST
      ∨ (execOps dt initCell ops).smState = PickSmState.APPROACH_ABOVE_OBJECT
      ∨ (execOps dt initCell ops).smState = PickSmState.APPROACH_OBJECT
      ∨ (execOps dt initCell ops).smState = PickSmState.GRASP_OBJECT
      ∨ (execOps dt initCell ops).smState = PickSmState.LIFT_OBJECT)
    ∧ 0 ≤ (execOps dt initCell ops).smWaitTime
    ∧ (∀ pre ee op dop off, ops = pre ++ [SmOp.step ee op dop off] →
        0 < (execOps dt initCell ops).smWaitTime) := by
  have main : ∀ (l : List SmOp) (c : SmCell),
      (c.smState = PickSmState.REST ∨ c.smState = PickSmState.APPROACH_ABOVE_OBJECT
        ∨ c.smState = PickSmState.APPROACH_OBJECT ∨ c.smState = PickSmState.GRASP_OBJECT
        ∨ c.smState = PickSmState.LIFT_OBJECT) →
      0 ≤ c.smWaitTime →
      ((execOps dt c l).smState = PickSmState.REST
        ∨ (execOps dt c l).smState = PickSmState.APPROACH_ABOVE_OBJECT
        ∨ (execOps dt c l).smState = PickSmState.APPROACH_OBJECT
        ∨ (execOps dt c l).smState = PickSmState.GRASP_OBJECT
        ∨ (execOps dt c l).smState = PickSmState.LIFT_OBJECT)
        ∧ 0 ≤ (execOps dt c l).smWaitTime := by
    intro l
    induction l with
    | nil => exact fun c h1 h2 => ⟨h1, h2⟩
    | cons o rest ih =>
        intro c h1 h2
        cases o with
        | step ee op dop off =>
            apply ih
            · simp only [applySmOp]
              have hs : (infer_state_machine dt c ee op dop off).smState
                  = (ctrl (c.smState, c.smWaitTime)).1 :=
                congrArg Prod.fst (infer_state_machine_proj dt c ee op dop off)
              rw [hs]
              exact ctrl_enum (c.smState, c.smWaitTime) h1
            · simp only [applySmOp]
              have hw : (infer_state_machine dt c ee op dop off).smWaitTime
                  = (ctrl (c.smState, c.smWaitTime)).2 + dt :=
                congrArg Prod.snd (infer_state_machine_proj dt c ee op dop off)
              rw [hw]
              rcases ctrl_wait_cases (c.smState, c.smWaitTime) with hc | hc <;>
                rw [hc] <;> linarith
        | reset =>
            apply ih
            · exact Or.inl rfl
            · exact le_rfl
  refine ⟨(main ops initCell (Or.inl rfl) le_rfl).1,
    (main ops initCell (Or.inl rfl) le_rfl).2, ?_⟩
  intro pre ee op dop off hops
  subst hops
  rw [execOps_append]
  show 0 < (infer_state_machine dt (execOps dt initCell pre) ee op dop off).smWaitTime
  have hw : (infer_state_machine dt (execOps dt initCell pre) ee op dop off).smWaitTime
      = (ctrl ((execOps dt initCell pre).smState, (execOps dt initCell pre).smWaitTime)).2 + dt :=
    congrArg Prod.snd (infer_state_machine_proj dt (execOps dt initCell pre) ee op dop off)
  rw [hw]
  have hinv := main pre initCell (Or.inl rfl) le_rfl
  rcases ctrl_wait_cases ((execOps dt initCell pre).smState,
      (execOps dt initCell pre).smWaitTime) with hc | hc <;> rw [hc]
  · linarith
  · have := hinv.2
    simp only []
    linarith

/-- Witness for C10: one compute tick with `dt = 1` leaves a strictly
positive wait time. -/
theorem c10_witness :
    0 < (execOps 1 initCell
        [SmOp.step zeroTransform zeroTransform zeroTransform approach_offset]).smWaitTime :=
  (c10_invariant 1 [SmOp.step zeroTransform zeroTransform zeroTransform approach_offset]
    one_pos).2.2 [] zeroTransform zeroTransform zeroTransform approach_offset rfl
